import Mathlib

/-!
Verification of the optional-value engine of this repository (the `@ts-rust/std`
Option type and its asynchronous PendingOption counterpart) and of the display
helper `stringify`. The implementation classes behind the IOption and
PendingOption interfaces are not under src/ — only the interface declarations
with their behavioral documentation are — so those operations are modelled from
the specification and from the documented contracts on the declarations.
Caller-supplied functions that may throw are modelled as functions into
`Except ε`, where an `error` value is the thrown value; an operation that can
raise returns `Except (AnyError ε)`. In-place mutation of an option cell is
modelled by explicit state passing: a mutating method maps the state of the
cell before the call to the pair of its return value and the state of the same
cell after the call.
-/

/-- Modelled from the spec: the implementation class behind the IOption interface
is missing from src/. OptionCore is the synchronous two-variant optional value:
`present` carries exactly one value, `absent` carries nothing. -/
inductive OptionCore (α : Type) where
  | present : α → OptionCore α
  | absent : OptionCore α

/-- Modelled from the spec: the AnyError class (the ErrorWrapper) is external to
src/. It carries a human message plus an optional nested cause; the original
thrown value is stored in the `reason` field. -/
structure AnyError (ε : Type) where
  message : String
  reason : Option ε

/-- Modelled from the spec: the Result (outcome) type is external to src/. It is
the two-variant fallible value with success (`ok`) and failure (`err`). -/
inductive Result (α ε : Type) where
  | ok : α → Result α ε
  | err : ε → Result α ε

/-- True exactly on the `present` variant, the query behind `isSome`. -/
def OptionCore.isSome {α : Type} : OptionCore α → Bool
  | .present _ => true
  | .absent => false

/-- Modelled from the spec: `map` applies `f` to the contained value when
present; a throw from `f` is swallowed and yields `absent`. -/
def OptionCore.map {α β ε : Type} (f : α → Except ε β) : OptionCore α → OptionCore β
  | .present v =>
      match f v with
      | .ok y => .present y
      | .error _ => .absent
  | .absent => .absent

/-- Modelled from the spec: `andThen` applies `f` (returning an option) to the
contained value when present; a throw from `f` is swallowed and yields `absent`. -/
def OptionCore.andThen {α β ε : Type} (f : α → Except ε (OptionCore β)) :
    OptionCore α → OptionCore β
  | .present v =>
      match f v with
      | .ok o => o
      | .error _ => .absent
  | .absent => .absent

/-- Modelled from the spec: `filter` keeps a present value only when the
predicate returns true; a throw from the predicate is swallowed and yields
`absent`. -/
def OptionCore.filter {α ε : Type} (f : α → Except ε Bool) : OptionCore α → OptionCore α
  | .present v =>
      match f v with
      | .ok true => .present v
      | .ok false => .absent
      | .error _ => .absent
  | .absent => .absent

/-- Modelled from the spec: `orElse` returns the receiver when present and the
result of `f` when absent; a throw from `f` is swallowed and yields `absent`. -/
def OptionCore.orElse {α ε : Type} (f : Unit → Except ε (OptionCore α)) :
    OptionCore α → OptionCore α
  | .present v => .present v
  | .absent =>
      match f () with
      | .ok o => o
      | .error _ => .absent

/-- Modelled from the spec: `inspect` calls `f` on the contained value for its
side effect only and returns the receiver with the same value; the result of
`f`, including a throw, is discarded and never alters the outcome. -/
def OptionCore.inspect {α ε : Type} (f : α → Except ε Unit) : OptionCore α → OptionCore α
  | .present v =>
      let _ := f v
      .present v
  | .absent => .absent

/-- Modelled from the spec: `take` removes the value, returning the old option
and leaving the cell absent. -/
def OptionCore.take {α : Type} (o : OptionCore α) : OptionCore α × OptionCore α :=
  (o, .absent)

/-- Modelled from the spec: `takeIf` takes the value only when present and the
predicate returns true; when the predicate returns false or throws, `absent` is
returned and the cell keeps its original value. -/
def OptionCore.takeIf {α ε : Type} (f : α → Except ε Bool) :
    OptionCore α → OptionCore α × OptionCore α
  | .present v =>
      match f v with
      | .ok true => (.present v, .absent)
      | .ok false => (.absent, .present v)
      | .error _ => (.absent, .present v)
  | .absent => (.absent, .absent)

/-- Modelled from the spec: `getOrInsert` returns the contained value when
present, otherwise inserts `x` into the cell and returns it. -/
def OptionCore.getOrInsert {α : Type} (x : α) : OptionCore α → α × OptionCore α
  | .present v => (v, .present v)
  | .absent => (x, .present x)

/-- Message of the error raised when the `getOrInsertWith` callback throws; the
exact wording is not pinned down by the declarations, only its existence. -/
def OptionCore.getOrInsertWithMsg : String :=
  "getOrInsertWith callback threw an exception"

/-- Modelled from the spec: `getOrInsertWith` returns the contained value when
present without consulting `f`; when absent it inserts and returns the result of
`f`, and if `f` throws it raises an AnyError carrying the original thrown value
as reason while the cell stays unchanged (no partial mutation). -/
def OptionCore.getOrInsertWith {α ε : Type} (f : Unit → Except ε α) :
    OptionCore α → Except (AnyError ε) α × OptionCore α
  | .present v => (Except.ok v, .present v)
  | .absent =>
      match f () with
      | .ok x => (Except.ok x, .present x)
      | .error e => (Except.error ⟨OptionCore.getOrInsertWithMsg, some e⟩, .absent)

/-- Modelled from the spec: `replace` overwrites the cell with `x` and returns
the old option. -/
def OptionCore.replace {α : Type} (x : α) (o : OptionCore α) :
    OptionCore α × OptionCore α :=
  (o, .present x)

/-- Message of the error raised when the `mapOrElse` default callback throws. -/
def OptionCore.mapOrElseMsg : String :=
  "mapOrElse default callback threw an exception"

/-- Runs the default callback of `mapOrElse`, wrapping a throw from it into an
AnyError that carries the original thrown value as reason. -/
def OptionCore.runDefault {β ε : Type} (mkDef : Unit → Except ε β) :
    Except (AnyError ε) β :=
  match mkDef () with
  | .ok d => Except.ok d
  | .error e => Except.error ⟨OptionCore.mapOrElseMsg, some e⟩

/-- Modelled from the spec: `mapOrElse` applies `f` to the contained value when
present, falling back to the default callback both when absent and when `f`
throws (per the documented contract on the declaration, a throw from `f` is
silently ignored and the result of `mkDef` is returned); only a throw from
`mkDef` itself is wrapped into an AnyError and raised. -/
def OptionCore.mapOrElse {α β ε : Type} (mkDef : Unit → Except ε β)
    (f : α → Except ε β) : OptionCore α → Except (AnyError ε) β
  | .present v =>
      match f v with
      | .ok y => Except.ok y
      | .error _ => OptionCore.runDefault mkDef
  | .absent => OptionCore.runDefault mkDef

/-- Message of the error raised when a `match` branch callback throws. -/
def OptionCore.matchMsg : String :=
  "match callback threw an exception"

/-- Modelled from the spec: `match` applies `f` to the value when present and
`g` when absent; a throw from the invoked branch is wrapped into an AnyError
carrying the original thrown value as reason and raised. -/
def OptionCore.matchWith {α β ε : Type} (f : α → Except ε β) (g : Unit → Except ε β) :
    OptionCore α → Except (AnyError ε) β
  | .present v =>
      match f v with
      | .ok y => Except.ok y
      | .error e => Except.error ⟨OptionCore.matchMsg, some e⟩
  | .absent =>
      match g () with
      | .ok y => Except.ok y
      | .error e => Except.error ⟨OptionCore.matchMsg, some e⟩

/-- Default message of the error raised by `expect` on an absent option when no
message is supplied; the exact wording is not pinned down by the declarations. -/
def OptionCore.expectMsg : String :=
  "`expect` is called on `None`"

/-- Modelled from the spec: `expect` returns the contained value when present
and raises an AnyError whose message is the caller-supplied one (or a fixed
default) when absent. -/
def OptionCore.expect {α ε : Type} (msg : Option String) :
    OptionCore α → Except (AnyError ε) α
  | .present v => Except.ok v
  | .absent => Except.error ⟨msg.getD OptionCore.expectMsg, none⟩

/-- Message of the error raised by `unwrap` on an absent option, as documented
on the declaration. -/
def OptionCore.unwrapMsg : String :=
  "`unwrap` is called on `None`"

/-- Modelled from the spec: `unwrap` returns the contained value when present
and raises an AnyError with a fixed default message when absent. -/
def OptionCore.unwrap {α ε : Type} : OptionCore α → Except (AnyError ε) α
  | .present v => Except.ok v
  | .absent => Except.error ⟨OptionCore.unwrapMsg, none⟩

/-- Modelled from the spec: `unwrapOr` returns the contained value when present
and the supplied default when absent; it is total and never raises, which the
plain (non Except) return type makes structural. -/
def OptionCore.unwrapOr {α : Type} (d : α) : OptionCore α → α
  | .present v => v
  | .absent => d

/-- Modelled from the spec: `xor` is present exactly when exactly one side is
present, yielding that side and its value. -/
def OptionCore.xor {α : Type} : OptionCore α → OptionCore α → OptionCore α
  | .present v, .absent => .present v
  | .absent, .present w => .present w
  | .present _, .present _ => .absent
  | .absent, .absent => .absent

/-- Modelled from the spec: `okOr` converts to the outcome type, mapping a
present value to success and absence to failure with the supplied error. -/
def OptionCore.okOr {α ε : Type} (y : ε) : OptionCore α → Result α ε
  | .present v => Result.ok v
  | .absent => Result.err y

/-- Modelled from the spec: `transposeResult` turns an option of an outcome into
an outcome of an option, propagating failure and mapping absence to success of
absence. -/
def OptionCore.transposeResult {α ε : Type} :
    OptionCore (Result α ε) → Result (OptionCore α) ε
  | .present (Result.ok v) => Result.ok (.present v)
  | .present (Result.err e) => Result.err e
  | .absent => Result.ok .absent

/-- Modelled from the spec: the PendingOption class is missing from src/. A
pending option is modelled by the settled outcome of its single memoized
underlying future: either a resolution to an OptionCore, or a rejection
carrying the thrown value. -/
abbrev PendingOption (α ε : Type) : Type := Except ε (OptionCore α)

/-- Modelled from the spec: awaiting a pending option yields its settled
OptionCore; a rejection of the underlying future is caught and treated as
resolving to `absent`. -/
def PendingOption.settle {α ε : Type} : PendingOption α ε → OptionCore α
  | Except.ok o => o
  | Except.error _ => OptionCore.absent

/-- Modelled from the spec: `take` on a pending option fans two derived futures
out of the single settlement of the original future: the returned pending
option resolves to the pre-mutation snapshot and the receiver is updated to
resolve to the post-mutation value, both computed from the one settled value. -/
def PendingOption.take {α ε : Type} (p : PendingOption α ε) :
    PendingOption α ε × PendingOption α ε :=
  let s := PendingOption.settle p
  let r := OptionCore.take s
  (Except.ok r.1, Except.ok r.2)

/-- Modelled from the spec: pending `map` awaits the underlying future (with
rejection treated as absence) and then applies the synchronous `map`. -/
def PendingOption.map {α β ε : Type} (f : α → Except ε β) (p : PendingOption α ε) :
    PendingOption β ε :=
  Except.ok (OptionCore.map f (PendingOption.settle p))

/-- Modelled from the spec: pending `andThen` awaits the underlying future (with
rejection treated as absence) and then applies the synchronous `andThen`. -/
def PendingOption.andThen {α β ε : Type} (f : α → Except ε (OptionCore β))
    (p : PendingOption α ε) : PendingOption β ε :=
  Except.ok (OptionCore.andThen f (PendingOption.settle p))

/-- Modelled from the spec: pending `filter` awaits the underlying future (with
rejection treated as absence) and then applies the synchronous `filter`. -/
def PendingOption.filter {α ε : Type} (f : α → Except ε Bool)
    (p : PendingOption α ε) : PendingOption α ε :=
  Except.ok (OptionCore.filter f (PendingOption.settle p))

/-- A JavaScript runtime value, distinguished exactly as far as the branches of
`stringify` in src/packages/shared/src/stringify.ts distinguish their input.
Numbers and bigints are modelled on the integers (their rendering by `String`
respectively `toString` never fails, which is all that matters here); `fn`
carries the `name` property of a function (empty for an anonymous one); `obj`
carries, first, the behavior of a custom own `toString` method when the object
has one that differs from `Object.prototype.toString` (`Except.ok` the returned
string, or `Except.error` the value it throws), and second, the behavior of
`JSON.stringify` on the object (`Except.ok` the produced string, or
`Except.error` when it throws, as on circular objects). -/
inductive JsValue where
  | promise : JsValue
  | jsNull : JsValue
  | jsUndefined : JsValue
  | str : String → JsValue
  | num : Int → JsValue
  | boolean : Bool → JsValue
  | sym : String → JsValue
  | bigint : Int → JsValue
  | fn : String → JsValue
  | obj : Option (Except String String) → Except Unit String → JsValue

/-- The single-quote character used by `stringify` when quoting strings. -/
def squote : String := (Char.ofNat 39).toString

/-- The fixed fallback string of the guarded `JSON.stringify` branch. -/
def circularFallback : String := "[Circular or Unstringifiable Object]"

/-- The `stringify` function of src/packages/shared/src/stringify.ts, branch by
branch in source order: promises, null, undefined, strings (quoted on demand),
numbers and booleans via `String`, symbols and bigints via `toString`,
functions via their name, and objects first through a custom own `toString`
when present (whose throw propagates — there is no guard around this call) and
otherwise through `JSON.stringify` guarded by a try/catch that falls back to a
fixed string. The result is `Except.error t` exactly when the call throws `t`. -/
def stringify (value : JsValue) (quoteString : Bool) : Except String String :=
  match value with
  | .promise => Except.ok "promise"
  | .jsNull => Except.ok "null"
  | .jsUndefined => Except.ok "undefined"
  | .str s => Except.ok (if quoteString then squote ++ s ++ squote else s)
  | .num n => Except.ok (toString n)
  | .boolean b => Except.ok (toString b)
  | .sym d => Except.ok ("Symbol(" ++ d ++ ")")
  | .bigint n => Except.ok (toString n ++ "n")
  | .fn name => Except.ok ("[Function: " ++ (if name = "" then "anonymous" else name) ++ "]")
  | .obj (some (Except.ok s)) _ => Except.ok s
  | .obj (some (Except.error e)) _ => Except.error e
  | .obj none (Except.ok s) => Except.ok s
  | .obj none (Except.error _) => Except.ok circularFallback

/-- True exactly on the inputs where `stringify` reaches an unguarded call of a
custom own `toString` method that throws. -/
def throwsOwnToString : JsValue → Bool
  | .obj (some (Except.error _)) _ => true
  | _ => false

/-- C1 counterexample: the claim states that for `mapOrElse` a throw from the
present-branch function `f` alone is wrapped and raised; on the documented
contract, `mapOrElse` on `present 2` with a throwing `f` and a default callback
returning `1` instead swallows the throw of `f` and returns `ok 1` — no error
is raised. -/
theorem mapOrElse_fThrow_falls_back_concrete :
    OptionCore.mapOrElse (fun _ => Except.ok 1)
      (fun _ => (Except.error 7 : Except Nat Nat)) (OptionCore.present 2)
      = Except.ok 1 := rfl

/-- C1 (amended): for a present option, `match` wraps a throw from the invoked
branch into an AnyError carrying the original thrown value and raises it;
`mapOrElse` raises a wrapped error only when the default callback throws — a
throw from `f` alone falls back to the result of the default callback — and in
particular with both branches throwing (as in
`present(2).mapOrElse(() => \x7b throw 1 \x7d, () => \x7b throw 2 \x7d)`) it
raises an AnyError wrapping the default-callback failure. -/
theorem match_raises_mapOrElse_raises_on_mkDef_throw {α β ε : Type}
    (v : α) (e1 e2 : ε) (f : α → Except ε β) (g : Unit → Except ε β)
    (hf : f v = Except.error e1) (hg : g () = Except.error e2) :
    OptionCore.matchWith f g (OptionCore.present v)
        = Except.error ⟨OptionCore.matchMsg, some e1⟩ ∧
    OptionCore.mapOrElse g f (OptionCore.present v)
        = Except.error ⟨OptionCore.mapOrElseMsg, some e2⟩ ∧
    ∀ (d : β) (k : Unit → Except ε β), k () = Except.ok d →
      OptionCore.mapOrElse k f (OptionCore.present v) = Except.ok d := by
  refine ⟨?_, ?_, ?_⟩
  · simp [OptionCore.matchWith, hf]
  · simp [OptionCore.mapOrElse, OptionCore.runDefault, hf, hg]
  · intro d k hk
    simp [OptionCore.mapOrElse, OptionCore.runDefault, hf, hk]

/-- C1 witness: the amended raise semantics evaluated at `present 2` with both
branches throwing concrete values. -/
theorem match_raises_mapOrElse_raises_on_mkDef_throw_witness :
    OptionCore.matchWith (fun _ => (Except.error 5 : Except Nat Nat))
        (fun _ => Except.error 6) (OptionCore.present 2)
        = Except.error ⟨OptionCore.matchMsg, some 5⟩ ∧
    OptionCore.mapOrElse (fun _ => (Except.error 6 : Except Nat Nat))
        (fun _ => Except.error 5) (OptionCore.present 2)
        = Except.error ⟨OptionCore.mapOrElseMsg, some 6⟩ :=
  ⟨(match_raises_mapOrElse_raises_on_mkDef_throw 2 5 6
      (fun _ => Except.error 5) (fun _ => Except.error 6) rfl rfl).1,
   (match_raises_mapOrElse_raises_on_mkDef_throw 2 5 6
      (fun _ => Except.error 5) (fun _ => Except.error 6) rfl rfl).2.1⟩

/-- C2: `map`, `andThen`, `filter` and `takeIf` on a present receiver whose
callback throws return `absent`; `orElse` on an absent receiver whose callback
throws returns `absent`; and `inspect` with a throwing callback returns the
receiver unchanged, on both variants. -/
theorem transform_combinators_swallow_throw {α β ε : Type} (a : α) (e : ε)
    (f : α → Except ε β) (hf : f a = Except.error e)
    (p : α → Except ε (OptionCore β)) (hp : p a = Except.error e)
    (q : α → Except ε Bool) (hq : q a = Except.error e)
    (g : Unit → Except ε (OptionCore α)) (hg : g () = Except.error e)
    (c : α → Except ε Unit) (_hc : c a = Except.error e) :
    OptionCore.map f (OptionCore.present a) = OptionCore.absent ∧
    OptionCore.andThen p (OptionCore.present a) = OptionCore.absent ∧
    OptionCore.filter q (OptionCore.present a) = OptionCore.absent ∧
    (OptionCore.takeIf q (OptionCore.present a)).1 = OptionCore.absent ∧
    OptionCore.orElse g (OptionCore.absent : OptionCore α) = OptionCore.absent ∧
    OptionCore.inspect c (OptionCore.present a) = OptionCore.present a ∧
    OptionCore.inspect c (OptionCore.absent : OptionCore α) = OptionCore.absent := by
  refine ⟨?_, ?_, ?_, ?_, ?_, ?_, ?_⟩
  · simp [OptionCore.map, hf]
  · simp [OptionCore.andThen, hp]
  · simp [OptionCore.filter, hq]
  · simp [OptionCore.takeIf, hq]
  · simp [OptionCore.orElse, hg]
  · simp [OptionCore.inspect]
  · simp [OptionCore.inspect]

/-- C2 witness: the swallowing semantics evaluated on concrete throwing
callbacks over the naturals. -/
theorem transform_combinators_swallow_throw_witness :
    OptionCore.map (fun _ => (Except.error 0 : Except Nat Nat))
        (OptionCore.present 2) = OptionCore.absent ∧
    OptionCore.andThen (fun _ => (Except.error 0 : Except Nat (OptionCore Nat)))
        (OptionCore.present 2) = OptionCore.absent ∧
    OptionCore.filter (fun _ => (Except.error 0 : Except Nat Bool))
        (OptionCore.present 2) = OptionCore.absent ∧
    (OptionCore.takeIf (fun _ => (Except.error 0 : Except Nat Bool))
        (OptionCore.present 2)).1 = OptionCore.absent ∧
    OptionCore.orElse (fun _ => (Except.error 0 : Except Nat (OptionCore Nat)))
        (OptionCore.absent : OptionCore Nat) = OptionCore.absent ∧
    OptionCore.inspect (fun _ => (Except.error 0 : Except Nat Unit))
        (OptionCore.present 2) = OptionCore.present 2 ∧
    OptionCore.inspect (fun _ => (Except.error 0 : Except Nat Unit))
        (OptionCore.absent : OptionCore Nat) = OptionCore.absent :=
  transform_combinators_swallow_throw 2 0
    (fun _ => (Except.error 0 : Except Nat Nat)) rfl
    (fun _ => (Except.error 0 : Except Nat (OptionCore Nat))) rfl
    (fun _ => (Except.error 0 : Except Nat Bool)) rfl
    (fun _ => (Except.error 0 : Except Nat (OptionCore Nat))) rfl
    (fun _ => (Except.error 0 : Except Nat Unit)) rfl

/-- C3: `getOrInsertWith` on a present option returns the contained value and
leaves the cell present with it, for every callback whatsoever (the callback is
never consulted); on an absent option with a throwing callback it raises an
AnyError carrying the original thrown value as reason, and the cell afterwards
is exactly what it was before the call — still absent, no partial mutation. -/
theorem getOrInsertWith_throw_behavior {α ε : Type} (v : α) (e : ε)
    (f : Unit → Except ε α) (hf : f () = Except.error e) :
    (∀ (g : Unit → Except ε α),
        OptionCore.getOrInsertWith g (OptionCore.present v)
          = (Except.ok v, OptionCore.present v)) ∧
    OptionCore.getOrInsertWith f (OptionCore.absent : OptionCore α)
      = (Except.error ⟨OptionCore.getOrInsertWithMsg, some e⟩, OptionCore.absent) := by
  refine ⟨fun g => rfl, ?_⟩
  simp [OptionCore.getOrInsertWith, hf]

/-- C3 witness: evaluated at `present 2` and at `absent` with a concrete
throwing callback. -/
theorem getOrInsertWith_throw_behavior_witness :
    (∀ (g : Unit → Except Nat Nat),
        OptionCore.getOrInsertWith g (OptionCore.present 2)
          = (Except.ok 2, OptionCore.present 2)) ∧
    OptionCore.getOrInsertWith (fun _ => (Except.error 9 : Except Nat Nat))
        (OptionCore.absent : OptionCore Nat)
      = (Except.error ⟨OptionCore.getOrInsertWithMsg, some 9⟩, OptionCore.absent) :=
  getOrInsertWith_throw_behavior 2 9 (fun _ => Except.error 9) rfl

/-- C4: for a pending option constructed over `present 2`, `take` produces two
futures fanned out of one settlement: the returned pending option settles to
the pre-mutation snapshot `present 2`, the receiver afterwards settles to
`absent`, and in general both derived futures are a function of the single
settled value of the original future alone (so the original is consulted
exactly once, through `settle`). -/
theorem pending_take_fan_out :
    PendingOption.settle
        (PendingOption.take (Except.ok (OptionCore.present 2) : PendingOption Nat Unit)).1
      = OptionCore.present 2 ∧
    PendingOption.settle
        (PendingOption.take (Except.ok (OptionCore.present 2) : PendingOption Nat Unit)).2
      = OptionCore.absent ∧
    ∀ (p : PendingOption Nat Unit),
      PendingOption.take p = PendingOption.take (Except.ok (PendingOption.settle p)) :=
  ⟨rfl, rfl, fun _ => rfl⟩

/-- C5: a rejected underlying future settles to `absent` when awaited, and every
derived pending option built by `map`, `andThen`, `filter` or `take` over a
rejected future resolves to `absent` rather than re-raising; moreover a derived
pending option built by `map` never rejects, whatever the upstream was. -/
theorem rejected_future_resolves_absent {α β ε : Type} (e : ε)
    (f : α → Except ε β) (t : α → Except ε (OptionCore β)) (q : α → Except ε Bool) :
    PendingOption.settle (Except.error e : PendingOption α ε) = OptionCore.absent ∧
    PendingOption.map f (Except.error e : PendingOption α ε)
      = Except.ok OptionCore.absent ∧
    PendingOption.andThen t (Except.error e : PendingOption α ε)
      = Except.ok OptionCore.absent ∧
    PendingOption.filter q (Except.error e : PendingOption α ε)
      = Except.ok OptionCore.absent ∧
    (PendingOption.take (Except.error e : PendingOption α ε)).1
      = Except.ok OptionCore.absent ∧
    ∀ (r : PendingOption α ε), ∃ (o : OptionCore β),
      PendingOption.map f r = Except.ok o :=
  ⟨rfl, rfl, rfl, rfl, rfl,
   fun r => ⟨OptionCore.map f (PendingOption.settle r), rfl⟩⟩

/-- C5 witness: evaluated over the naturals at a concrete rejection. -/
theorem rejected_future_resolves_absent_witness :
    PendingOption.settle (Except.error 0 : PendingOption Nat Nat) = OptionCore.absent ∧
    PendingOption.map (fun x => Except.ok (x + 1))
        (Except.error 0 : PendingOption Nat Nat) = Except.ok OptionCore.absent :=
  ⟨(rejected_future_resolves_absent 0 (fun x => (Except.ok (x + 1) : Except Nat Nat))
      (fun _ => Except.ok OptionCore.absent) (fun _ => Except.ok true)).1,
   (rejected_future_resolves_absent 0 (fun x => (Except.ok (x + 1) : Except Nat Nat))
      (fun _ => Except.ok OptionCore.absent) (fun _ => Except.ok true)).2.1⟩

/-- C6: mutation identity — on an absent cell, `getOrInsert 5` returns `5` and
the same cell is present with contained value `5` afterwards; on a cell holding
`present 2`, `replace 5` returns the old option `present 2` and the same cell
holds `5` afterwards. The in-place variant flip on the same instance is
modelled by state passing: the second component is the state of the very cell
the call was made on. -/
theorem mutation_identity_getOrInsert_replace :
    OptionCore.getOrInsert 5 (OptionCore.absent : OptionCore Nat)
      = (5, OptionCore.present 5) ∧
    OptionCore.replace 5 (OptionCore.present 2)
      = (OptionCore.present 2, OptionCore.present 5) :=
  ⟨rfl, rfl⟩

/-- C7: conversion round-trips to the outcome type — `okOr` maps a present
value to success and absence to the supplied failure, and `transposeResult`
maps a present success to a success of a present value, a present failure to
that failure, and absence to a success of absence. -/
theorem okOr_transposeResult_round_trip {α ε : Type} (v : α) (e : ε) :
    OptionCore.okOr e (OptionCore.present v) = Result.ok v ∧
    OptionCore.okOr e (OptionCore.absent : OptionCore α) = Result.err e ∧
    OptionCore.transposeResult (OptionCore.present (Result.ok v) : OptionCore (Result α ε))
      = Result.ok (OptionCore.present v) ∧
    OptionCore.transposeResult (OptionCore.present (Result.err e) : OptionCore (Result α ε))
      = Result.err e ∧
    OptionCore.transposeResult (OptionCore.absent : OptionCore (Result α ε))
      = Result.ok OptionCore.absent :=
  ⟨rfl, rfl, rfl, rfl, rfl⟩

/-- C7 witness: the round trip evaluated over the naturals. -/
theorem okOr_transposeResult_round_trip_witness :
    OptionCore.okOr 9 (OptionCore.present 2) = Result.ok 2 ∧
    OptionCore.okOr 9 (OptionCore.absent : OptionCore Nat) = Result.err 9 ∧
    OptionCore.transposeResult (OptionCore.present (Result.ok 2) : OptionCore (Result Nat Nat))
      = Result.ok (OptionCore.present 2) ∧
    OptionCore.transposeResult (OptionCore.present (Result.err 9) : OptionCore (Result Nat Nat))
      = Result.err 9 ∧
    OptionCore.transposeResult (OptionCore.absent : OptionCore (Result Nat Nat))
      = Result.ok OptionCore.absent :=
  okOr_transposeResult_round_trip 2 9

/-- C8: extraction raising — on an absent option `expect` raises an AnyError
whose message is exactly the caller-supplied one and `unwrap` raises an
AnyError with the fixed default message; on a present option both return the
contained value; `unwrapOr` returns the value when present and the default when
absent, and its plain return type makes it total, so it never raises. -/
theorem expect_unwrap_unwrapOr_extraction {α : Type} (v : α) (m : String) (d : α) :
    OptionCore.expect (some m) (OptionCore.present v)
      = (Except.ok v : Except (AnyError Unit) α) ∧
    OptionCore.expect (some m) (OptionCore.absent : OptionCore α)
      = (Except.error ⟨m, none⟩ : Except (AnyError Unit) α) ∧
    OptionCore.unwrap (OptionCore.present v)
      = (Except.ok v : Except (AnyError Unit) α) ∧
    OptionCore.unwrap (OptionCore.absent : OptionCore α)
      = (Except.error ⟨OptionCore.unwrapMsg, none⟩ : Except (AnyError Unit) α) ∧
    OptionCore.unwrapOr d (OptionCore.present v) = v ∧
    OptionCore.unwrapOr d (OptionCore.absent : OptionCore α) = d :=
  ⟨rfl, rfl, rfl, rfl, rfl, rfl⟩

/-- C8 witness: extraction evaluated at `present 42`, the message "msg" and the
default 0. -/
theorem expect_unwrap_unwrapOr_extraction_witness :
    OptionCore.expect (some "msg") (OptionCore.present 42)
      = (Except.ok 42 : Except (AnyError Unit) Nat) ∧
    OptionCore.expect (some "msg") (OptionCore.absent : OptionCore Nat)
      = (Except.error ⟨"msg", none⟩ : Except (AnyError Unit) Nat) ∧
    OptionCore.unwrap (OptionCore.present 42)
      = (Except.ok 42 : Except (AnyError Unit) Nat) ∧
    OptionCore.unwrap (OptionCore.absent : OptionCore Nat)
      = (Except.error ⟨OptionCore.unwrapMsg, none⟩ : Except (AnyError Unit) Nat) ∧
    OptionCore.unwrapOr 0 (OptionCore.present 42) = 42 ∧
    OptionCore.unwrapOr 0 (OptionCore.absent : OptionCore Nat) = 0 :=
  expect_unwrap_unwrapOr_extraction 42 "msg" 0

/-- C9: `xor` is present exactly when exactly one of its two sides is present —
its presence bit is the boolean xor of the presence bits — and in that case it
yields the present side with its value; in particular
`present 2 xor absent = present 2`, `present 2 xor present 3 = absent` and
`absent xor absent = absent`. -/
theorem xor_exactly_one_present :
    (∀ (α : Type) (x y : OptionCore α),
        OptionCore.isSome (OptionCore.xor x y)
          = Bool.xor (OptionCore.isSome x) (OptionCore.isSome y)) ∧
    (∀ (α : Type) (a : α),
        OptionCore.xor (OptionCore.present a) OptionCore.absent = OptionCore.present a ∧
        OptionCore.xor OptionCore.absent (OptionCore.present a) = OptionCore.present a) ∧
    OptionCore.xor (OptionCore.present 2) (OptionCore.absent : OptionCore Nat)
      = OptionCore.present 2 ∧
    OptionCore.xor (OptionCore.present 2) (OptionCore.present 3) = OptionCore.absent ∧
    OptionCore.xor (OptionCore.absent : OptionCore Nat) OptionCore.absent
      = OptionCore.absent := by
  refine ⟨?_, ?_, rfl, rfl, rfl⟩
  · intro α x y
    cases x <;> cases y <;> rfl
  · intro α a
    exact ⟨rfl, rfl⟩

/-- C10 counterexample: `stringify` applied to an object whose own custom
`toString` method itself throws propagates that throw to the caller — the
try/catch in the source guards only the `JSON.stringify` call, not the
`v.toString()` call — so `stringify` is not total over all inputs. -/
theorem stringify_throwing_toString_propagates :
    stringify (JsValue.obj (some (Except.error "boom")) (Except.ok "42")) false
      = Except.error "boom" := rfl

/-- C10 (amended): `stringify` returns a string and never throws for every
input, except an object carrying a custom own `toString` method that itself
throws, where the throw propagates; the `JSON.stringify` branch is guarded, and
its failure falls back to the fixed string
"[Circular or Unstringifiable Object]". -/
theorem stringify_total_unless_toString_throws (v : JsValue) (q : Bool)
    (h : throwsOwnToString v = false) :
    (∃ s, stringify v q = Except.ok s) ∧
    stringify (JsValue.obj none (Except.error ())) q = Except.ok circularFallback := by
  refine ⟨?_, rfl⟩
  cases v with
  | promise => exact ⟨_, rfl⟩
  | jsNull => exact ⟨_, rfl⟩
  | jsUndefined => exact ⟨_, rfl⟩
  | str s => exact ⟨_, rfl⟩
  | num n => exact ⟨_, rfl⟩
  | boolean b => exact ⟨_, rfl⟩
  | sym d => exact ⟨_, rfl⟩
  | bigint n => exact ⟨_, rfl⟩
  | fn name => exact ⟨_, rfl⟩
  | obj c j =>
      cases c with
      | none =>
          cases j with
          | ok s => exact ⟨_, rfl⟩
          | error u => exact ⟨_, rfl⟩
      | some r =>
          cases r with
          | ok s => exact ⟨_, rfl⟩
          | error e => simp [throwsOwnToString] at h

/-- C10 witness: totality evaluated at the null value, together with the
guarded fallback on an object whose JSON serialization throws. -/
theorem stringify_total_unless_toString_throws_witness :
    (∃ s, stringify JsValue.jsNull false = Except.ok s) ∧
    stringify (JsValue.obj none (Except.error ())) false = Except.ok circularFallback :=
  stringify_total_unless_toString_throws JsValue.jsNull false rfl
